import Mathlib

/-!
# Verification of `onnx_to_tensorrt.cc` (`onnxToTrtCtx`)

Shallow embedding of `src/operator/subgraph/tensorrt/onnx_to_tensorrt.cc`.
The external collaborators (protobuf deserialization, the onnx-tensorrt
backend, the TensorRT builder and the hardware capability probes) are
modelled as an oracle environment `TrtEnv`; the control flow of
`onnxToTrtCtx` is translated statement by statement, producing an explicit
trace of builder/calibrator side effects, the list of diagnostic lines
written to the error stream, the final state of the caller's calibrator
object, and the returned tuple (primary engine, pending background-build
handle) or the thrown error.

The preprocessor split `NV_TENSORRT_MAJOR > 6` (lines 122-162) versus the
legacy branch (lines 163-195) is modelled by the boolean parameter
`nvTensorrtMajorGt6`.
-/

namespace OnnxToTensorrt

/-- `onnx::NodeProto`, restricted to the fields used by this file:
`op_type()` and the repeated `output()` field. -/
structure NodeProto where
  op_type : String
  output : List String
deriving Repr, DecidableEq

/-- `onnx::GraphProto`: the repeated `node()` field. -/
structure GraphProto where
  node : List NodeProto
deriving Repr, DecidableEq

/-- `onnx::ModelProto`: the `graph()` field. -/
structure ModelProto where
  graph : GraphProto
deriving Repr, DecidableEq

/-- `nvonnxparser::IParserError`: node index (`-1` when unknown), file,
line, function, numeric code, description. -/
structure IParserError where
  node : Int
  file : String
  line : Nat
  func : String
  code : Int
  desc : String
deriving Repr, DecidableEq

/-- `nvinfer1::ILogger::Severity`. -/
inductive Severity where
  | internalError
  | severityError
  | warning
  | info
  | verbose
deriving Repr, DecidableEq

/-- The numeric value of a severity, as produced by `static_cast<int>`. -/
def Severity.toInt : Severity → Int
  | .internalError => 0
  | .severityError => 1
  | .warning => 2
  | .info => 3
  | .verbose => 4

/-- Caller-owned `TRTInt8Calibrator` state observed by this file:
whether its calibration cache is empty (`isCacheEmpty`), and whether
`setDone` has been called on it. -/
structure TRTInt8Calibrator where
  cacheEmpty : Bool
  done : Bool
deriving Repr, DecidableEq

/-- The effective build configuration: the flags and values set on
`IBuilderConfig` (TensorRT 7) or directly on the builder (TensorRT <= 6). -/
structure BuilderConfig where
  fp16 : Bool
  int8 : Bool
  debug : Bool
  maxWorkspaceSize : Nat
  calibratorAttached : Bool
deriving Repr, DecidableEq

/-- A freshly created builder configuration: no flags set. -/
def BuilderConfig.init : BuilderConfig :=
  { fp16 := false, int8 := false, debug := false,
    maxWorkspaceSize := 0, calibratorAttached := false }

/-- A compiled engine, recorded as the builder state it was compiled
with: the batch-size ceiling and the snapshot of the configuration at
the moment `buildEngineWithConfig` / `buildCudaEngine` ran. -/
structure Engine where
  maxBatchSize : Int
  config : BuilderConfig
deriving Repr, DecidableEq

/-- The oracle environment: outcomes of the external collaborators for
the duration of one `onnxToTrtCtx` call. -/
structure TrtEnv where
  /-- `ModelProto::ParseFromString` on a byte buffer: the decoded model,
  or `none` when protobuf deserialization fails. -/
  protobufParse : String → Option ModelProto
  /-- Result of `trt_parser->parse(bytes, size)`. -/
  backendParseOk : String → Bool
  /-- The records returned by `trt_parser->getError(0..getNbErrors)`,
  when the backend parse failed. -/
  backendErrors : List IParserError
  /-- `trt_builder->platformHasFastFp16()`. -/
  platformHasFastFp16 : Bool
  /-- `trt_builder->platformHasFastInt8()`. -/
  platformHasFastInt8 : Bool
  /-- Whether the backend build step returns a non-null engine for a
  given configuration snapshot. -/
  buildSucceeds : BuilderConfig → Bool

/-- One line of diagnostic output written to `cerr`, kept structured
(node-attributed header, optional node dump, ERROR line). -/
inductive DiagLine where
  | nodeHeader (nodeIndex : Int) (opType : String) (firstOutput : Option String)
  | nodeDump (node : NodeProto)
  | errorLine (file : String) (line : Nat) (func : String) (code : Int) (desc : String)
deriving Repr, DecidableEq

/-- `parsed_model.graph().node(i)`: protobuf repeated-field access.  The
C++ accessor performs no release-mode bounds check; an index outside
`[0, node_size)` is undefined behaviour, modelled as `none`. -/
def ModelProto.getNode (m : ModelProto) (i : Int) : Option NodeProto :=
  if i < 0 then none else m.graph.node.get? i.toNat

/-- Outcome of reporting a single parse error record: either the lines
written to `cerr`, or a fault from unchecked repeated-field indexing. -/
inductive ReportStep where
  | crash
  | lines (ls : List DiagLine)
deriving Repr, DecidableEq

/-- Lines 95-116: report one `IParserError`.  When `error->node() != -1`
the node is looked up (unchecked) in the parsed model, a header with the
op type and — only when the output list is non-empty — the first output
name is printed, followed at verbosity >= kINFO by a full node dump;
in every case the ERROR line with file, line, function, code and
description is printed. -/
def reportError (parsed_model : ModelProto) (verbosity : Severity)
    (e : IParserError) : ReportStep :=
  if e.node ≠ -1 then
    match parsed_model.getNode e.node with
    | none => .crash
    | some node =>
      .lines ([DiagLine.nodeHeader e.node node.op_type node.output.head?] ++
        (if Severity.info.toInt ≤ verbosity.toInt then [DiagLine.nodeDump node] else []) ++
        [DiagLine.errorLine e.file e.line e.func e.code e.desc])
  else
    .lines [DiagLine.errorLine e.file e.line e.func e.code e.desc]

/-- Lines 93-117: the loop over `getNbErrors()` error records.  Returns
the accumulated diagnostic lines together with `some i` when the loop
faulted on the unchecked node index `i` (diagnostics of later records
are then never emitted). -/
def reportErrors (parsed_model : ModelProto) (verbosity : Severity) :
    List IParserError → List DiagLine × Option Int
  | [] => ([], none)
  | e :: rest =>
    match reportError parsed_model verbosity e with
    | .crash => ([], some e.node)
    | .lines ls =>
      let r := reportErrors parsed_model verbosity rest
      (ls ++ r.1, r.2)

/-- The errors `onnxToTrtCtx` can end in: the two `dmlc::Error` throws,
plus the fault from unchecked node indexing in the diagnostic loop. -/
inductive TrtError where
  | malformedModel (msg : String)
  | graphCompileError (msg : String)
  | nodeIndexFault (nodeIndex : Int)
deriving Repr, DecidableEq

/-- Side effects on the builder, configuration and calibrator, in
program order. -/
inductive Event where
  | backendParseInvoked
  | setMaxBatchSize (n : Int)
  | setFp16Flag
  | warnFp16Unsupported
  | setMaxWorkspaceSize (n : Nat)
  | setDebugFlag
  | setDebugSync (b : Bool)
  | primaryBuild (cfg : BuilderConfig)
  | setInt8Flag
  | setInt8Calibrator
  | warnInt8Unsupported
  | calibratorSetDone
  | scheduleBackground (cfg : BuilderConfig)
deriving Repr, DecidableEq

/-- Recognizes an invocation of the backend engine-compile step (the
synchronous one or the scheduled background one). -/
def Event.isBuildInvocation : Event → Bool
  | .primaryBuild _ => true
  | .scheduleBackground _ => true
  | _ => false

/-- Recognizes the scheduling of a background calibration build. -/
def Event.isScheduleBackground : Event → Bool
  | .scheduleBackground _ => true
  | _ => false

/-- The tuple returned on success (the parser and logger members carry
no observable state and are omitted): the primary engine handle and the
`std::future` for the background int8 build.  The outer `Option` is the
future's validity (`none` = default-constructed, empty handle); the
inner `Option Engine` is what a scheduled future resolves to. -/
structure RetTuple where
  trt_engine : Option Engine
  future_int8_engine : Option (Option Engine)
deriving Repr, DecidableEq

deriving instance DecidableEq for Except

/-- Everything observable about one `onnxToTrtCtx` call: the `cerr`
diagnostics, the trace of side effects, the caller's calibrator object
after the call, and the returned tuple or thrown error. -/
structure CallResult where
  diags : List DiagLine
  trace : List Event
  calibrator_out : Option TRTInt8Calibrator
  outcome : Except TrtError RetTuple
deriving Repr, DecidableEq

/-- `buildEngineWithConfig` / `buildCudaEngine`: compile an engine from
the current builder state; returns a null handle when the backend build
fails. -/
def buildEngineWithConfig (env : TrtEnv) (maxBatchSize : Int)
    (cfg : BuilderConfig) : Option Engine :=
  if env.buildSucceeds cfg then some { maxBatchSize := maxBatchSize, config := cfg } else none

/-- Lines 125-131 (and 164-170): the fp16 block, identical in both
branches.  Returns the updated configuration and the emitted events. -/
def fp16Step (env : TrtEnv) (fp16_mode : Bool) (cfg : BuilderConfig) :
    BuilderConfig × List Event :=
  if fp16_mode then
    if env.platformHasFastFp16 then
      ({ cfg with fp16 := true }, [Event.setFp16Flag])
    else
      (cfg, [Event.warnFp16Unsupported])
  else
    (cfg, [])

/-- Result of the calibrator block: updated configuration, the local
`calibrator` pointer after the block (nulled when int8 is unsupported),
the caller's calibrator object, and the emitted events. -/
structure Int8StepResult where
  cfg : BuilderConfig
  calibratorLocal : Option TRTInt8Calibrator
  calibratorObj : Option TRTInt8Calibrator
  events : List Event
deriving Repr, DecidableEq

/-- Lines 140-149 (and 175-184): the calibrator block, identical in both
branches.  If a calibrator is supplied and the platform has fast int8,
set the int8 flag and attach the calibrator; otherwise warn, call
`calibrator->setDone()` and null the local pointer. -/
def int8Step (env : TrtEnv) (calibrator : Option TRTInt8Calibrator)
    (cfg : BuilderConfig) : Int8StepResult :=
  match calibrator with
  | none =>
    { cfg := cfg, calibratorLocal := none, calibratorObj := none, events := [] }
  | some c =>
    if env.platformHasFastInt8 then
      { cfg := { cfg with int8 := true, calibratorAttached := true },
        calibratorLocal := some c, calibratorObj := some c,
        events := [Event.setInt8Flag, Event.setInt8Calibrator] }
    else
      { cfg := cfg, calibratorLocal := none,
        calibratorObj := some { c with done := true },
        events := [Event.warnInt8Unsupported, Event.calibratorSetDone] }

/-- Lines 152-161 (and 187-195): if the local calibrator pointer is
still set and the cache is empty, schedule the background calibration
build (modelled by the engine it resolves to) for the current
configuration. -/
def backgroundStep (env : TrtEnv) (max_batch_size : Int)
    (calibratorLocal : Option TRTInt8Calibrator) (cfg : BuilderConfig) :
    Option (Option Engine) × List Event :=
  match calibratorLocal with
  | some c =>
    if c.cacheEmpty then
      (some (buildEngineWithConfig env max_batch_size cfg),
       [Event.scheduleBackground cfg])
    else
      (none, [])
  | none => (none, [])

/-- Lines 70-199: `onnxToTrtCtx`.  `nvTensorrtMajorGt6` selects the
`NV_TENSORRT_MAJOR > 6` preprocessor branch (primary build at line 138,
before the calibrator block) or the legacy branch (calibrator block
before the primary build at line 185). -/
def onnxToTrtCtx (env : TrtEnv) (nvTensorrtMajorGt6 : Bool)
    (onnx_model : String) (fp16_mode : Bool) (max_batch_size : Int)
    (max_workspace_size : Nat) (calibrator : Option TRTInt8Calibrator)
    (verbosity : Severity) (debug_builder : Bool) : CallResult :=
  match env.protobufParse onnx_model with
  | none =>
    { diags := [], trace := [], calibrator_out := calibrator,
      outcome := .error (.malformedModel "Could not parse ONNX from string") }
  | some parsed_model =>
    if env.backendParseOk onnx_model then
      let trace0 : List Event :=
        [Event.backendParseInvoked, Event.setMaxBatchSize max_batch_size]
      let s1 := fp16Step env fp16_mode BuilderConfig.init
      let cfg2 : BuilderConfig := { s1.1 with maxWorkspaceSize := max_workspace_size }
      let trace2 := trace0 ++ s1.2 ++ [Event.setMaxWorkspaceSize max_workspace_size]
      let dbg : BuilderConfig × List Event :=
        if nvTensorrtMajorGt6 then
          if debug_builder then ({ cfg2 with debug := true }, [Event.setDebugFlag])
          else (cfg2, [])
        else
          ({ cfg2 with debug := debug_builder }, [Event.setDebugSync debug_builder])
      let cfg3 := dbg.1
      let trace3 := trace2 ++ dbg.2
      if nvTensorrtMajorGt6 then
        let primary := buildEngineWithConfig env max_batch_size cfg3
        let s2 := int8Step env calibrator cfg3
        let bg := backgroundStep env max_batch_size s2.calibratorLocal s2.cfg
        { diags := [],
          trace := trace3 ++ [Event.primaryBuild cfg3] ++ s2.events ++ bg.2,
          calibrator_out := s2.calibratorObj,
          outcome := .ok { trt_engine := primary, future_int8_engine := bg.1 } }
      else
        let s2 := int8Step env calibrator cfg3
        let primary := buildEngineWithConfig env max_batch_size s2.cfg
        let bg := backgroundStep env max_batch_size s2.calibratorLocal s2.cfg
        { diags := [],
          trace := trace3 ++ s2.events ++ [Event.primaryBuild s2.cfg] ++ bg.2,
          calibrator_out := s2.calibratorObj,
          outcome := .ok { trt_engine := primary, future_int8_engine := bg.1 } }
    else
      let r := reportErrors parsed_model verbosity env.backendErrors
      { diags := r.1,
        trace := [Event.backendParseInvoked],
        calibrator_out := calibrator,
        outcome :=
          match r.2 with
          | some i => .error (.nodeIndexFault i)
          | none => .error (.graphCompileError "Cannot parse ONNX into TensorRT Engine") }

/-- The primary engine handle of a completed call (`none` on a thrown
error or a null build result). -/
def CallResult.primaryEngine (r : CallResult) : Option Engine :=
  match r.outcome with
  | .ok rt => rt.trt_engine
  | .error _ => none

/-- The pending background-build handle of a completed call. -/
def CallResult.pendingHandle (r : CallResult) : Option (Option Engine) :=
  match r.outcome with
  | .ok rt => rt.future_int8_engine
  | .error _ => none

/-- The ERROR line of a parse error record. -/
def IParserError.toErrorLine (e : IParserError) : DiagLine :=
  .errorLine e.file e.line e.func e.code e.desc

/-- Recognizes an ERROR line among the diagnostics. -/
def DiagLine.isErrorLine : DiagLine → Bool
  | .errorLine _ _ _ _ _ => true
  | _ => false

/-- Recognizes the fp16 capability warning. -/
def Event.isWarnFp16 : Event → Bool
  | .warnFp16Unsupported => true
  | _ => false

/-! ## Concrete environments used by witnesses and counterexamples -/

/-- A one-node model used by the permissive environments. -/
def modelConv : ModelProto :=
  { graph := { node := [{ op_type := "Conv", output := ["y"] }] } }

/-- Permissive environment: deserialization and backend parse succeed,
the platform has fast fp16 and int8, and every build succeeds. -/
def envAll : TrtEnv :=
  { protobufParse := fun _ => some modelConv,
    backendParseOk := fun _ => true,
    backendErrors := [],
    platformHasFastFp16 := true,
    platformHasFastInt8 := true,
    buildSucceeds := fun _ => true }

/-- Like `envAll`, but the platform reports no fast fp16. -/
def envNoFp16 : TrtEnv :=
  { envAll with platformHasFastFp16 := false }

/-- Like `envAll`, but the platform reports no fast int8. -/
def envNoInt8 : TrtEnv :=
  { envAll with platformHasFastInt8 := false }

/-- Environment whose byte buffer fails protobuf deserialization. -/
def envNoParse : TrtEnv :=
  { envAll with protobufParse := fun _ => none }

/-- A parse error record attributed to node `0`. -/
def errAtNode0 : IParserError :=
  { node := 0, file := "builtin_op_importers.cpp", line := 42,
    func := "importConv", code := 4, desc := "bad Conv" }

/-- A parse error record with unknown node (`-1`). -/
def errNoNode : IParserError :=
  { node := -1, file := "ModelImporter.cpp", line := 7,
    func := "importModel", code := 1, desc := "bad model" }

/-- A model whose single node has an empty output list. -/
def modelNoOutputs : ModelProto :=
  { graph := { node := [{ op_type := "Relu", output := [] }] } }

/-- Environment where the backend parser rejects the model, reporting
one error on the (output-less) node 0 and one with unknown node. -/
def envDiag : TrtEnv :=
  { protobufParse := fun _ => some modelNoOutputs,
    backendParseOk := fun _ => false,
    backendErrors := [errAtNode0, errNoNode],
    platformHasFastFp16 := true,
    platformHasFastInt8 := true,
    buildSucceeds := fun _ => true }

/-- Environment where the backend parser rejects the model and reports
an error whose node index `3` lies outside the parsed model's (empty)
node sequence. -/
def envBadIndex : TrtEnv :=
  { protobufParse := fun _ => some { graph := { node := [] } },
    backendParseOk := fun _ => false,
    backendErrors := [{ node := 3, file := "f", line := 1, func := "g",
                        code := 2, desc := "d" }],
    platformHasFastFp16 := false,
    platformHasFastInt8 := false,
    buildSucceeds := fun _ => false }

/-! ## Theorems -/

/-- C3: whenever protobuf deserialization of the byte buffer fails,
`onnxToTrtCtx` throws the `MalformedModel` error ("Could not parse ONNX
from string"), the backend parser is never invoked on the bytes, and
zero engines are produced, regardless of what the backend would do. -/
theorem C3_malformed_model_gate (env : TrtEnv) (nv : Bool) (m : String)
    (fp16 : Bool) (mbs : Int) (mws : Nat) (cal : Option TRTInt8Calibrator)
    (v : Severity) (dbg : Bool)
    (hp : env.protobufParse m = none) :
    (onnxToTrtCtx env nv m fp16 mbs mws cal v dbg).outcome =
      .error (.malformedModel "Could not parse ONNX from string") ∧
    Event.backendParseInvoked ∉ (onnxToTrtCtx env nv m fp16 mbs mws cal v dbg).trace ∧
    (onnxToTrtCtx env nv m fp16 mbs mws cal v dbg).primaryEngine = none ∧
    (onnxToTrtCtx env nv m fp16 mbs mws cal v dbg).pendingHandle = none := by
  simp [onnxToTrtCtx, hp, CallResult.primaryEngine, CallResult.pendingHandle]

/-- C3 witness: the gate at a concrete environment. -/
theorem C3_malformed_model_gate_witness :
    envNoParse.protobufParse "bytes" = none ∧
    ((onnxToTrtCtx envNoParse true "bytes" false 1 16 none Severity.warning false).outcome =
      .error (.malformedModel "Could not parse ONNX from string") ∧
    Event.backendParseInvoked ∉
      (onnxToTrtCtx envNoParse true "bytes" false 1 16 none Severity.warning false).trace ∧
    (onnxToTrtCtx envNoParse true "bytes" false 1 16 none Severity.warning false).primaryEngine = none ∧
    (onnxToTrtCtx envNoParse true "bytes" false 1 16 none Severity.warning false).pendingHandle = none) :=
  ⟨rfl, C3_malformed_model_gate envNoParse true "bytes" false 1 16 none
    Severity.warning false rfl⟩

/-- C10: for an error record whose node index is `-1` (unknown), the
diagnostic output is exactly the single ERROR line: no node-attributed
header and no node dump, at any verbosity. -/
theorem C10_unknown_node_diag (pm : ModelProto) (v : Severity) (e : IParserError)
    (h : e.node = -1) :
    reportError pm v e = .lines [e.toErrorLine] := by
  simp [reportError, h, IParserError.toErrorLine]

/-- C10 witness: at maximum verbosity the unknown-node record still
yields only its ERROR line. -/
theorem C10_unknown_node_diag_witness :
    errNoNode.node = -1 ∧
    reportError modelNoOutputs Severity.verbose errNoNode =
      .lines [errNoNode.toErrorLine] :=
  ⟨rfl, C10_unknown_node_diag modelNoOutputs Severity.verbose errNoNode rfl⟩

/-- C2 counterexample: the reporting loop is not guarded against an
out-of-range node index.  With a parsed model holding no nodes and a
single error record carrying node index `3`, the loop faults on the
unchecked `parsed_model.graph().node(3)` access before emitting any
diagnostic line, instead of reaching the `GraphCompileError` throw. -/
theorem C2_counterexample :
    (onnxToTrtCtx envBadIndex true "m" false 1 0 none Severity.warning false).outcome =
      .error (.nodeIndexFault 3) ∧
    (onnxToTrtCtx envBadIndex true "m" false 1 0 none Severity.warning false).diags = [] := by
  exact ⟨rfl, rfl⟩

/-- C2 amended: the loop guards against an unknown node index (`-1`)
and against an empty output list — a model whose single invalid node
has no outputs still yields its diagnostic lines, with no access to the
empty output sequence — but it is not guarded against an out-of-range
node index. -/
theorem C2_empty_output_guard (env : TrtEnv) (nv : Bool) (m : String)
    (fp16 : Bool) (mbs : Int) (mws : Nat) (cal : Option TRTInt8Calibrator)
    (v : Severity) (dbg : Bool) (pm : ModelProto) (node : NodeProto) (e : IParserError)
    (hp : env.protobufParse m = some pm)
    (hb : env.backendParseOk m = false)
    (hn : pm.graph.node = [node])
    (hout : node.output = [])
    (he : env.backendErrors = [e])
    (hidx : e.node = 0) :
    (onnxToTrtCtx env nv m fp16 mbs mws cal v dbg).diags =
      [DiagLine.nodeHeader 0 node.op_type none] ++
        (if Severity.info.toInt ≤ v.toInt then [DiagLine.nodeDump node] else []) ++
        [e.toErrorLine] ∧
    (onnxToTrtCtx env nv m fp16 mbs mws cal v dbg).outcome =
      .error (.graphCompileError "Cannot parse ONNX into TensorRT Engine") := by
  simp [onnxToTrtCtx, hp, hb, he, reportErrors, reportError, hidx,
    ModelProto.getNode, hn, hout, IParserError.toErrorLine, List.head?]

/-- C2 witness: the output-less invalid node at verbosity kVERBOSE. -/
theorem C2_empty_output_guard_witness :
    envDiag.protobufParse "m" = some modelNoOutputs ∧
    envDiag.backendParseOk "m" = false ∧
    modelNoOutputs.graph.node = [{ op_type := "Relu", output := [] }] ∧
    ({ op_type := "Relu", output := [] } : NodeProto).output = [] ∧
    { envDiag with backendErrors := [errAtNode0] }.backendErrors = [errAtNode0] ∧
    errAtNode0.node = 0 ∧
    ((onnxToTrtCtx { envDiag with backendErrors := [errAtNode0] } true "m" false 1 0
        none Severity.verbose false).diags =
      [DiagLine.nodeHeader 0 "Relu" none] ++
        (if Severity.info.toInt ≤ Severity.verbose.toInt then
          [DiagLine.nodeDump { op_type := "Relu", output := [] }] else []) ++
        [errAtNode0.toErrorLine] ∧
    (onnxToTrtCtx { envDiag with backendErrors := [errAtNode0] } true "m" false 1 0
        none Severity.verbose false).outcome =
      .error (.graphCompileError "Cannot parse ONNX into TensorRT Engine")) :=
  ⟨rfl, rfl, rfl, rfl, rfl, rfl,
    C2_empty_output_guard { envDiag with backendErrors := [errAtNode0] } true "m"
      false 1 0 none Severity.verbose false modelNoOutputs
      { op_type := "Relu", output := [] } errAtNode0 rfl rfl rfl rfl rfl rfl⟩

/-- A record whose node index is `-1` or indexes into the parsed model
is reported without faulting; its lines contain exactly its ERROR line,
and — when the node is known — the node-attributed header. -/
theorem reportError_no_crash (pm : ModelProto) (v : Severity) (e : IParserError)
    (hwf : e.node = -1 ∨ (0 ≤ e.node ∧ e.node.toNat < pm.graph.node.length)) :
    ∃ ls, reportError pm v e = .lines ls ∧
      ls.filter DiagLine.isErrorLine = [e.toErrorLine] ∧
      (e.node ≠ -1 → ∃ node, pm.getNode e.node = some node ∧
        DiagLine.nodeHeader e.node node.op_type node.output.head? ∈ ls) := by
  rcases hwf with h | ⟨h0, hlt⟩
  · refine ⟨[e.toErrorLine], ?_, ?_, ?_⟩
    · simp [reportError, h, IParserError.toErrorLine]
    · simp [DiagLine.isErrorLine, IParserError.toErrorLine]
    · intro hne
      exact absurd h hne
  · have hne : e.node ≠ -1 := by omega
    have hget : pm.getNode e.node = some (pm.graph.node.get ⟨e.node.toNat, hlt⟩) := by
      simp [ModelProto.getNode, not_lt.mpr h0, List.get?_eq_get hlt]
    refine ⟨[DiagLine.nodeHeader e.node (pm.graph.node.get ⟨e.node.toNat, hlt⟩).op_type
        (pm.graph.node.get ⟨e.node.toNat, hlt⟩).output.head?] ++
      (if Severity.info.toInt ≤ v.toInt then
        [DiagLine.nodeDump (pm.graph.node.get ⟨e.node.toNat, hlt⟩)] else []) ++
      [DiagLine.errorLine e.file e.line e.func e.code e.desc], ?_, ?_, ?_⟩
    · simp only [reportError, hne, ne_eq, not_false_eq_true, ite_true, hget]
    · rcases Decidable.em (Severity.info.toInt ≤ v.toInt) with hv | hv <;>
        simp [hv, DiagLine.isErrorLine, IParserError.toErrorLine]
    · intro _
      refine ⟨pm.graph.node.get ⟨e.node.toNat, hlt⟩, hget, ?_⟩
      simp

/-- Under in-range (or unknown) node indices, the reporting loop over
all error records never faults, emits exactly one ERROR line per record
in order, and node-attributes every record with a known node index. -/
theorem reportErrors_wf (pm : ModelProto) (v : Severity) (errs : List IParserError)
    (hwf : ∀ e ∈ errs, e.node = -1 ∨ (0 ≤ e.node ∧ e.node.toNat < pm.graph.node.length)) :
    (reportErrors pm v errs).2 = none ∧
    (reportErrors pm v errs).1.filter DiagLine.isErrorLine =
      errs.map IParserError.toErrorLine ∧
    ∀ e ∈ errs, e.node ≠ -1 → ∃ node, pm.getNode e.node = some node ∧
      DiagLine.nodeHeader e.node node.op_type node.output.head? ∈
        (reportErrors pm v errs).1 := by
  induction errs with
  | nil => simp [reportErrors]
  | cons e rest ih =>
    obtain ⟨ls, hls, hfil, hhead⟩ :=
      reportError_no_crash pm v e (hwf e (by simp))
    obtain ⟨ih1, ih2, ih3⟩ := ih (fun x hx => hwf x (by simp [hx]))
    refine ⟨?_, ?_, ?_⟩
    · simp [reportErrors, hls, ih1]
    · simp [reportErrors, hls, List.filter_append, hfil, ih2]
    · intro x hx hxne
      rcases List.mem_cons.mp hx with hx | hx
      · subst hx
        obtain ⟨node, hget, hmem⟩ := hhead hxne
        exact ⟨node, hget, by simp [reportErrors, hls, hmem]⟩
      · obtain ⟨node, hget, hmem⟩ := ih3 x hx hxne
        exact ⟨node, hget, by simp [reportErrors, hls, hmem]⟩

/-- C7: whenever the backend parser rejects a model that passed the
independent protobuf validation (with every error record's node index
unknown or in range), `onnxToTrtCtx` emits one ERROR line per record in
order, node-attributes each record with a known node index (op type and
first output name from the parsed model), then throws
`GraphCompileError`; no engine-compile step runs and zero engines are
produced. -/
theorem C7_backend_reject (env : TrtEnv) (nv : Bool) (m : String)
    (fp16 : Bool) (mbs : Int) (mws : Nat) (cal : Option TRTInt8Calibrator)
    (v : Severity) (dbg : Bool) (pm : ModelProto)
    (hp : env.protobufParse m = some pm)
    (hb : env.backendParseOk m = false)
    (hwf : ∀ e ∈ env.backendErrors,
      e.node = -1 ∨ (0 ≤ e.node ∧ e.node.toNat < pm.graph.node.length)) :
    (onnxToTrtCtx env nv m fp16 mbs mws cal v dbg).outcome =
      .error (.graphCompileError "Cannot parse ONNX into TensorRT Engine") ∧
    (onnxToTrtCtx env nv m fp16 mbs mws cal v dbg).diags.filter DiagLine.isErrorLine =
      env.backendErrors.map IParserError.toErrorLine ∧
    (∀ e ∈ env.backendErrors, e.node ≠ -1 →
      ∃ node, pm.getNode e.node = some node ∧
        DiagLine.nodeHeader e.node node.op_type node.output.head? ∈
          (onnxToTrtCtx env nv m fp16 mbs mws cal v dbg).diags) ∧
    (onnxToTrtCtx env nv m fp16 mbs mws cal v dbg).trace.filter
      Event.isBuildInvocation = [] ∧
    (onnxToTrtCtx env nv m fp16 mbs mws cal v dbg).primaryEngine = none := by
  obtain ⟨h1, h2, h3⟩ := reportErrors_wf pm v env.backendErrors hwf
  have hdiags : (onnxToTrtCtx env nv m fp16 mbs mws cal v dbg).diags =
      (reportErrors pm v env.backendErrors).1 := by
    simp [onnxToTrtCtx, hp, hb]
  refine ⟨?_, ?_, ?_, ?_, ?_⟩
  · simp [onnxToTrtCtx, hp, hb, h1]
  · rw [hdiags]
    exact h2
  · rw [hdiags]
    exact h3
  · simp [onnxToTrtCtx, hp, hb, Event.isBuildInvocation, List.filter]
  · simp [onnxToTrtCtx, hp, hb, h1, CallResult.primaryEngine]

/-- C7 witness: two error records (node 0 with no outputs; unknown
node) against a one-node model. -/
theorem C7_backend_reject_witness :
    envDiag.protobufParse "m" = some modelNoOutputs ∧
    envDiag.backendParseOk "m" = false ∧
    (∀ e ∈ envDiag.backendErrors,
      e.node = -1 ∨ (0 ≤ e.node ∧ e.node.toNat < modelNoOutputs.graph.node.length)) ∧
    ((onnxToTrtCtx envDiag false "m" true 2 64 none Severity.info true).outcome =
      .error (.graphCompileError "Cannot parse ONNX into TensorRT Engine") ∧
    (onnxToTrtCtx envDiag false "m" true 2 64 none Severity.info true).diags.filter
        DiagLine.isErrorLine =
      envDiag.backendErrors.map IParserError.toErrorLine ∧
    (∀ e ∈ envDiag.backendErrors, e.node ≠ -1 →
      ∃ node, modelNoOutputs.getNode e.node = some node ∧
        DiagLine.nodeHeader e.node node.op_type node.output.head? ∈
          (onnxToTrtCtx envDiag false "m" true 2 64 none Severity.info true).diags) ∧
    (onnxToTrtCtx envDiag false "m" true 2 64 none Severity.info true).trace.filter
      Event.isBuildInvocation = [] ∧
    (onnxToTrtCtx envDiag false "m" true 2 64 none Severity.info true).primaryEngine =
      none) :=
  ⟨rfl, rfl, by decide,
    C7_backend_reject envDiag false "m" true 2 64 none Severity.info true
      modelNoOutputs rfl rfl (by decide)⟩

/-- C8: for a well-formed input with fp16 off and no calibrator, the
call returns a non-null primary engine and an empty pending handle; the
engine was built with the batch-size ceiling from `max_batch_size`, the
workspace budget from `max_workspace_size`, and the debug flag exactly
when `debug_builder` is set. -/
theorem C8_default_build (env : TrtEnv) (nv : Bool) (m : String)
    (mbs : Int) (mws : Nat) (v : Severity) (dbg : Bool) (pm : ModelProto)
    (hp : env.protobufParse m = some pm)
    (hb : env.backendParseOk m = true)
    (hbuild : ∀ cfg, env.buildSucceeds cfg = true) :
    ∃ e, (onnxToTrtCtx env nv m false mbs mws none v dbg).outcome =
        .ok { trt_engine := some e, future_int8_engine := none } ∧
      e.maxBatchSize = mbs ∧ e.config.maxWorkspaceSize = mws ∧
      e.config.debug = dbg ∧ e.config.fp16 = false ∧ e.config.int8 = false ∧
      Event.setMaxBatchSize mbs ∈ (onnxToTrtCtx env nv m false mbs mws none v dbg).trace ∧
      Event.setMaxWorkspaceSize mws ∈ (onnxToTrtCtx env nv m false mbs mws none v dbg).trace := by
  cases nv <;> cases dbg <;>
    simp [onnxToTrtCtx, hp, hb, fp16Step, int8Step, backgroundStep,
      buildEngineWithConfig, hbuild, BuilderConfig.init]

/-- C8 witness: the default build at a concrete environment. -/
theorem C8_default_build_witness :
    envAll.protobufParse "m" = some modelConv ∧
    envAll.backendParseOk "m" = true ∧
    (∀ cfg, envAll.buildSucceeds cfg = true) ∧
    (∃ e, (onnxToTrtCtx envAll true "m" false 4 256 none Severity.warning true).outcome =
        .ok { trt_engine := some e, future_int8_engine := none } ∧
      e.maxBatchSize = 4 ∧ e.config.maxWorkspaceSize = 256 ∧
      e.config.debug = true ∧ e.config.fp16 = false ∧ e.config.int8 = false ∧
      Event.setMaxBatchSize 4 ∈
        (onnxToTrtCtx envAll true "m" false 4 256 none Severity.warning true).trace ∧
      Event.setMaxWorkspaceSize 256 ∈
        (onnxToTrtCtx envAll true "m" false 4 256 none Severity.warning true).trace) :=
  ⟨rfl, rfl, fun _ => rfl,
    C8_default_build envAll true "m" 4 256 Severity.warning true modelConv
      rfl rfl (fun _ => rfl)⟩

/-- C6: when fp16 is requested but the platform has no fast fp16,
exactly one warning is emitted, the fp16 flag is never set, the build
proceeds and the primary engine handle is non-null (built without
fp16); when the platform supports it, the flag is set, no warning is
emitted, and the engine is built with fp16. -/
theorem C6_fp16_capability (env : TrtEnv) (nv : Bool) (m : String)
    (mbs : Int) (mws : Nat) (cal : Option TRTInt8Calibrator) (v : Severity)
    (dbg : Bool) (pm : ModelProto)
    (hp : env.protobufParse m = some pm)
    (hb : env.backendParseOk m = true)
    (hbuild : ∀ cfg, env.buildSucceeds cfg = true) :
    (env.platformHasFastFp16 = false →
      ((onnxToTrtCtx env nv m true mbs mws cal v dbg).trace.filter
        Event.isWarnFp16).length = 1 ∧
      Event.setFp16Flag ∉ (onnxToTrtCtx env nv m true mbs mws cal v dbg).trace ∧
      ∃ e, (onnxToTrtCtx env nv m true mbs mws cal v dbg).primaryEngine = some e ∧
        e.config.fp16 = false) ∧
    (env.platformHasFastFp16 = true →
      Event.setFp16Flag ∈ (onnxToTrtCtx env nv m true mbs mws cal v dbg).trace ∧
      ((onnxToTrtCtx env nv m true mbs mws cal v dbg).trace.filter
        Event.isWarnFp16).length = 0 ∧
      ∃ e, (onnxToTrtCtx env nv m true mbs mws cal v dbg).primaryEngine = some e ∧
        e.config.fp16 = true) := by
  constructor <;> intro hfp <;> cases nv <;> cases dbg <;>
    rcases cal with _ | ⟨ce, cd⟩ <;> rcases h8 : env.platformHasFastInt8 <;>
    first
      | (cases ce <;>
          simp [onnxToTrtCtx, hp, hb, hfp, h8, fp16Step, int8Step, backgroundStep,
            buildEngineWithConfig, hbuild, BuilderConfig.init,
            CallResult.primaryEngine, Event.isWarnFp16])
      | simp [onnxToTrtCtx, hp, hb, hfp, h8, fp16Step, int8Step, backgroundStep,
          buildEngineWithConfig, hbuild, BuilderConfig.init,
          CallResult.primaryEngine, Event.isWarnFp16]

/-- C6 witness: fp16 requested on a platform without fast fp16. -/
theorem C6_fp16_capability_witness :
    envNoFp16.protobufParse "m" = some modelConv ∧
    envNoFp16.backendParseOk "m" = true ∧
    (∀ cfg, envNoFp16.buildSucceeds cfg = true) ∧
    ((envNoFp16.platformHasFastFp16 = false →
      ((onnxToTrtCtx envNoFp16 true "m" true 1 32 none Severity.warning false).trace.filter
        Event.isWarnFp16).length = 1 ∧
      Event.setFp16Flag ∉
        (onnxToTrtCtx envNoFp16 true "m" true 1 32 none Severity.warning false).trace ∧
      ∃ e, (onnxToTrtCtx envNoFp16 true "m" true 1 32 none
          Severity.warning false).primaryEngine = some e ∧
        e.config.fp16 = false) ∧
    (envNoFp16.platformHasFastFp16 = true →
      Event.setFp16Flag ∈
        (onnxToTrtCtx envNoFp16 true "m" true 1 32 none Severity.warning false).trace ∧
      ((onnxToTrtCtx envNoFp16 true "m" true 1 32 none Severity.warning false).trace.filter
        Event.isWarnFp16).length = 0 ∧
      ∃ e, (onnxToTrtCtx envNoFp16 true "m" true 1 32 none
          Severity.warning false).primaryEngine = some e ∧
        e.config.fp16 = true)) :=
  ⟨rfl, rfl, fun _ => rfl,
    C6_fp16_capability envNoFp16 true "m" 1 32 none Severity.warning false
      modelConv rfl rfl (fun _ => rfl)⟩

/-- C5: when a calibrator is supplied but the platform has no fast
int8, the int8 warning is emitted, the calibrator is marked done, the
int8 flag is never set, no background build is scheduled, and the rest
of the call — diagnostics and returned tuple — is identical to the same
call with no calibrator. -/
theorem C5_int8_unsupported (env : TrtEnv) (nv : Bool) (m : String)
    (fp16 : Bool) (mbs : Int) (mws : Nat) (c : TRTInt8Calibrator) (v : Severity)
    (dbg : Bool) (pm : ModelProto)
    (hp : env.protobufParse m = some pm)
    (hb : env.backendParseOk m = true)
    (h8 : env.platformHasFastInt8 = false) :
    (onnxToTrtCtx env nv m fp16 mbs mws (some c) v dbg).outcome =
      (onnxToTrtCtx env nv m fp16 mbs mws none v dbg).outcome ∧
    (onnxToTrtCtx env nv m fp16 mbs mws (some c) v dbg).diags =
      (onnxToTrtCtx env nv m fp16 mbs mws none v dbg).diags ∧
    (onnxToTrtCtx env nv m fp16 mbs mws (some c) v dbg).calibrator_out =
      some { c with done := true } ∧
    Event.warnInt8Unsupported ∈
      (onnxToTrtCtx env nv m fp16 mbs mws (some c) v dbg).trace ∧
    Event.setInt8Flag ∉ (onnxToTrtCtx env nv m fp16 mbs mws (some c) v dbg).trace ∧
    (onnxToTrtCtx env nv m fp16 mbs mws (some c) v dbg).trace.filter
      Event.isScheduleBackground = [] ∧
    (onnxToTrtCtx env nv m fp16 mbs mws (some c) v dbg).pendingHandle = none := by
  cases nv <;> cases dbg <;> cases fp16 <;> rcases hfp : env.platformHasFastFp16 <;>
    simp [onnxToTrtCtx, hp, hb, h8, hfp, fp16Step, int8Step, backgroundStep,
      buildEngineWithConfig, BuilderConfig.init, CallResult.pendingHandle,
      Event.isScheduleBackground]

/-- C5 witness: an empty-cache calibrator on a platform without fast
int8. -/
theorem C5_int8_unsupported_witness :
    envNoInt8.protobufParse "m" = some modelConv ∧
    envNoInt8.backendParseOk "m" = true ∧
    envNoInt8.platformHasFastInt8 = false ∧
    ((onnxToTrtCtx envNoInt8 true "m" false 1 32
        (some { cacheEmpty := true, done := false }) Severity.warning false).outcome =
      (onnxToTrtCtx envNoInt8 true "m" false 1 32 none Severity.warning false).outcome ∧
    (onnxToTrtCtx envNoInt8 true "m" false 1 32
        (some { cacheEmpty := true, done := false }) Severity.warning false).diags =
      (onnxToTrtCtx envNoInt8 true "m" false 1 32 none Severity.warning false).diags ∧
    (onnxToTrtCtx envNoInt8 true "m" false 1 32
        (some { cacheEmpty := true, done := false }) Severity.warning false).calibrator_out =
      some { cacheEmpty := true, done := true } ∧
    Event.warnInt8Unsupported ∈
      (onnxToTrtCtx envNoInt8 true "m" false 1 32
        (some { cacheEmpty := true, done := false }) Severity.warning false).trace ∧
    Event.setInt8Flag ∉
      (onnxToTrtCtx envNoInt8 true "m" false 1 32
        (some { cacheEmpty := true, done := false }) Severity.warning false).trace ∧
    (onnxToTrtCtx envNoInt8 true "m" false 1 32
        (some { cacheEmpty := true, done := false }) Severity.warning false).trace.filter
      Event.isScheduleBackground = [] ∧
    (onnxToTrtCtx envNoInt8 true "m" false 1 32
        (some { cacheEmpty := true, done := false }) Severity.warning false).pendingHandle =
      none) :=
  ⟨rfl, rfl, rfl,
    C5_int8_unsupported envNoInt8 true "m" false 1 32
      { cacheEmpty := true, done := false } Severity.warning false modelConv
      rfl rfl rfl⟩

/-- C4: on the build path, a background calibration build is scheduled
iff a calibrator is still attached after the capability check (supplied
and int8 supported) and its cache is empty; with a non-empty cache the
pending handle is empty and exactly one engine-compile invocation (the
synchronous one) occurs. -/
theorem C4_background_iff (env : TrtEnv) (nv : Bool) (m : String)
    (fp16 : Bool) (mbs : Int) (mws : Nat) (cal : Option TRTInt8Calibrator)
    (v : Severity) (dbg : Bool) (pm : ModelProto)
    (hp : env.protobufParse m = some pm)
    (hb : env.backendParseOk m = true) :
    ((onnxToTrtCtx env nv m fp16 mbs mws cal v dbg).pendingHandle.isSome = true ↔
      ∃ c, cal = some c ∧ env.platformHasFastInt8 = true ∧ c.cacheEmpty = true) ∧
    (∀ c, cal = some c → c.cacheEmpty = false →
      (onnxToTrtCtx env nv m fp16 mbs mws cal v dbg).pendingHandle = none ∧
      ((onnxToTrtCtx env nv m fp16 mbs mws cal v dbg).trace.filter
        Event.isBuildInvocation).length = 1) := by
  cases nv <;> cases dbg <;> cases fp16 <;> rcases hfp : env.platformHasFastFp16 <;>
    rcases cal with _ | ⟨ce, cd⟩ <;> rcases h8 : env.platformHasFastInt8 <;>
    first
      | (cases ce <;>
          simp [onnxToTrtCtx, hp, hb, hfp, h8, fp16Step, int8Step, backgroundStep,
            buildEngineWithConfig, BuilderConfig.init, CallResult.pendingHandle,
            Event.isBuildInvocation])
      | simp [onnxToTrtCtx, hp, hb, hfp, h8, fp16Step, int8Step, backgroundStep,
          buildEngineWithConfig, BuilderConfig.init, CallResult.pendingHandle,
          Event.isBuildInvocation]

/-- C4 witness: an int8-capable platform with a cache-populated
calibrator schedules nothing and builds exactly once. -/
theorem C4_background_iff_witness :
    envAll.protobufParse "m" = some modelConv ∧
    envAll.backendParseOk "m" = true ∧
    (((onnxToTrtCtx envAll true "m" false 1 32
        (some { cacheEmpty := false, done := false })
        Severity.warning false).pendingHandle.isSome = true ↔
      ∃ c, (some { cacheEmpty := false, done := false } :
          Option TRTInt8Calibrator) = some c ∧
        envAll.platformHasFastInt8 = true ∧ c.cacheEmpty = true) ∧
    (∀ c, (some { cacheEmpty := false, done := false } :
        Option TRTInt8Calibrator) = some c → c.cacheEmpty = false →
      (onnxToTrtCtx envAll true "m" false 1 32
        (some { cacheEmpty := false, done := false })
        Severity.warning false).pendingHandle = none ∧
      ((onnxToTrtCtx envAll true "m" false 1 32
        (some { cacheEmpty := false, done := false })
        Severity.warning false).trace.filter Event.isBuildInvocation).length = 1)) :=
  ⟨rfl, rfl,
    C4_background_iff envAll true "m" false 1 32
      (some { cacheEmpty := false, done := false }) Severity.warning false
      modelConv rfl rfl⟩

/-- The engine the `NV_TENSORRT_MAJOR > 6` branch builds synchronously
in the C1 counterexample: int8 flag clear, no calibrator attached. -/
def primaryEngineNoInt8 : Engine :=
  { maxBatchSize := 1,
    config := { fp16 := false, int8 := false, debug := false,
                maxWorkspaceSize := 16, calibratorAttached := false } }

/-- The engine the scheduled background build resolves to in the C1
counterexample: int8 flag set, calibrator attached. -/
def backgroundEngineInt8 : Engine :=
  { maxBatchSize := 1,
    config := { fp16 := false, int8 := true, debug := false,
                maxWorkspaceSize := 16, calibratorAttached := true } }

/-- C1 counterexample: in the `NV_TENSORRT_MAJOR > 6` branch (line 138)
the single synchronous primary build runs *before* the calibrator block
(lines 140-149).  With an int8-capable platform and a supplied
empty-cache calibrator, the returned primary engine was built with the
int8 flag clear and no calibrator attached — only the background engine
reflects the int8 flag — refuting the claimed ordering. -/
theorem C1_counterexample :
    (onnxToTrtCtx envAll true "m" false 1 16
        (some { cacheEmpty := true, done := false }) Severity.warning false).outcome =
      .ok { trt_engine := some primaryEngineNoInt8,
            future_int8_engine := some (some backgroundEngineInt8) } ∧
    primaryEngineNoInt8.config.int8 = false ∧
    backgroundEngineInt8.config.int8 = true := by
  exact ⟨rfl, rfl, rfl⟩

/-- C1 amended: the claimed ordering holds only in the legacy
`NV_TENSORRT_MAJOR <= 6` branch, where the primary build (line 185) runs
after the int8 flag and calibrator are attached and therefore reflects
them; in the `> 6` branch the primary build (line 138) precedes the
calibrator block, so the primary engine is built with the int8 flag
clear and only the background engine reflects it. -/
theorem C1_primary_build_ordering (env : TrtEnv) (m : String) (fp16 : Bool)
    (mbs : Int) (mws : Nat) (c : TRTInt8Calibrator) (v : Severity) (dbg : Bool)
    (pm : ModelProto)
    (hp : env.protobufParse m = some pm)
    (hb : env.backendParseOk m = true)
    (h8 : env.platformHasFastInt8 = true)
    (hbuild : ∀ cfg, env.buildSucceeds cfg = true) :
    (∃ e, (onnxToTrtCtx env false m fp16 mbs mws (some c) v dbg).primaryEngine =
        some e ∧ e.config.int8 = true ∧ e.config.calibratorAttached = true) ∧
    (∃ e, (onnxToTrtCtx env true m fp16 mbs mws (some c) v dbg).primaryEngine =
        some e ∧ e.config.int8 = false ∧ e.config.calibratorAttached = false) := by
  cases dbg <;> cases fp16 <;> rcases hfp : env.platformHasFastFp16 <;>
    simp [onnxToTrtCtx, hp, hb, h8, hfp, fp16Step, int8Step, backgroundStep,
      buildEngineWithConfig, hbuild, BuilderConfig.init, CallResult.primaryEngine]

/-- C1 witness: the contrasting branch behaviour at a concrete
environment with an int8-capable platform. -/
theorem C1_primary_build_ordering_witness :
    envAll.protobufParse "m" = some modelConv ∧
    envAll.backendParseOk "m" = true ∧
    envAll.platformHasFastInt8 = true ∧
    (∀ cfg, envAll.buildSucceeds cfg = true) ∧
    ((∃ e, (onnxToTrtCtx envAll false "m" false 1 16
        (some { cacheEmpty := true, done := false })
        Severity.warning false).primaryEngine = some e ∧
      e.config.int8 = true ∧ e.config.calibratorAttached = true) ∧
    (∃ e, (onnxToTrtCtx envAll true "m" false 1 16
        (some { cacheEmpty := true, done := false })
        Severity.warning false).primaryEngine = some e ∧
      e.config.int8 = false ∧ e.config.calibratorAttached = false)) :=
  ⟨rfl, rfl, rfl, fun _ => rfl,
    C1_primary_build_ordering envAll "m" false 1 16
      { cacheEmpty := true, done := false } Severity.warning false modelConv
      rfl rfl rfl (fun _ => rfl)⟩

end OnnxToTensorrt
